import Mathlib

/-!
Shallow embedding of the client-side request governor of this repository
(file src/api.js): the sliding-window rate limiter `canMakeRequest`, the
periodic status broadcast `sendRateLimitUpdate`, the background message
listener (modelled as `handleMessage`), and the network-facing calls
`translateText` and `testConnection`.  Timestamps are naturals
(milliseconds); JavaScript arithmetic that can go negative is carried out
on `Int`.
-/

/-- Embeds the constant RATE_LIMIT of src/api.js: max requests per minute. -/
def RATE_LIMIT : Nat := 8

/-- Embeds the constant TIME_WINDOW of src/api.js: one minute in milliseconds. -/
def TIME_WINDOW : Nat := 60000

/-- JavaScript Math.ceil applied to the exact quotient a / b, for b > 0:
the negated floor division of the negation. -/
def ceilDivInt (a b : Int) : Int := -((-a) / b)

/-- Result object returned by canMakeRequest: an isAllowed flag and, on
denial, the computed waitTime in seconds. -/
structure AdmitResult where
  isAllowed : Bool
  waitTime : Option Int
deriving DecidableEq, Repr

/-- The mutable background state of src/api.js: the requestTimestamps array. -/
structure RLState where
  requestTimestamps : List Nat
deriving DecidableEq, Repr

/-- Embeds canMakeRequest of src/api.js: prune timestamps older than the
time window, admit and append `now` when fewer than RATE_LIMIT remain,
otherwise deny with waitTime = ceil of (TIME_WINDOW - (now - oldest)) / 1000
seconds, computed from the first (oldest) surviving timestamp. -/
def canMakeRequest (now : Nat) (st : RLState) : AdmitResult × RLState :=
  let pruned := st.requestTimestamps.filter (fun x => now - x < TIME_WINDOW)
  if pruned.length < RATE_LIMIT then
    ({ isAllowed := true, waitTime := none }, ⟨pruned ++ [now]⟩)
  else
    let oldestTimestamp := pruned.headD 0
    let waitTime := ceilDivInt ((TIME_WINDOW : Int) - ((now : Int) - (oldestTimestamp : Int))) 1000
    ({ isAllowed := false, waitTime := some waitTime }, ⟨pruned⟩)

/-- The payload of the periodic rateLimitUpdate broadcast. -/
structure RateLimitUpdate where
  remainingRequests : Int
  waitTime : Option Int
deriving DecidableEq, Repr

/-- Embeds sendRateLimitUpdate of src/api.js.  It reads the raw
requestTimestamps array without pruning: remainingRequests is
RATE_LIMIT minus the raw length, and waitTime is derived from the raw
first entry (JavaScript truthiness: an absent entry and the timestamp 0
both yield 0), broadcast only when positive.  The function never writes
to the state, which is returned unchanged. -/
def sendRateLimitUpdate (now : Nat) (st : RLState) : RateLimitUpdate × RLState :=
  let remainingRequests : Int := (RATE_LIMIT : Int) - (st.requestTimestamps.length : Int)
  let oldestTimestamp : Nat := st.requestTimestamps.headD 0
  let waitTime : Int :=
    if oldestTimestamp ≠ 0 then
      ceilDivInt ((TIME_WINDOW : Int) - ((now : Int) - (oldestTimestamp : Int))) 1000
    else 0
  ({ remainingRequests := remainingRequests,
     waitTime := if waitTime > 0 then some waitTime else none }, st)

/-- The message kinds the background listener of src/api.js can receive. -/
inductive MessageAction
  | translate
  | testConnection
  | rateLimitUpdate
  | showMessage
  | updatePluginStatus
  | other
deriving DecidableEq, Repr

/-- An inbound runtime message: an action and its string fields. -/
structure Message where
  action : MessageAction
  text : String
  targetLanguage : String
  apiUrl : String
  apiKey : String
deriving DecidableEq, Repr

/-- The observable effect the listener produces synchronously: the
rate-limit error response, a delegation to translateText, a delegation
to testConnection, or nothing. -/
inductive HandlerEffect
  | respondRateLimitError (waitTime : Int) (message : String)
  | callTranslate (text targetLanguage apiUrl apiKey : String)
  | callTestConnection (apiUrl apiKey : String)
  | noEffect
deriving DecidableEq, Repr

/-- The rate-limit error text of src/api.js lines 71 and 80. -/
def rateLimitMessage (w : Int) : String :=
  s!"Rate limit exceeded. Please wait {w} seconds and try again."

/-- The per-action dispatch at the bottom of the listener: translate goes
to translateText, testConnection to testConnection, anything else falls
through with no effect.  The state is not touched here. -/
def dispatchAction (m : Message) (st : RLState) : HandlerEffect × RLState :=
  if m.action = MessageAction.translate then
    (HandlerEffect.callTranslate m.text m.targetLanguage m.apiUrl m.apiKey, st)
  else if m.action = MessageAction.testConnection then
    (HandlerEffect.callTestConnection m.apiUrl m.apiKey, st)
  else
    (HandlerEffect.noEffect, st)

/-- Embeds the chrome.runtime.onMessage listener of src/api.js: every
action other than rateLimitUpdate and showMessage first passes the
canMakeRequest gate; on denial the listener responds with the rate-limit
error (carrying the computed waitTime) and stops; otherwise it dispatches
on the action. -/
def handleMessage (m : Message) (now : Nat) (st : RLState) : HandlerEffect × RLState :=
  if m.action ≠ MessageAction.rateLimitUpdate ∧ m.action ≠ MessageAction.showMessage then
    let check := canMakeRequest now st
    if check.1.isAllowed = false then
      (HandlerEffect.respondRateLimitError (check.1.waitTime.getD 0)
        (rateLimitMessage (check.1.waitTime.getD 0)), check.2)
    else
      dispatchAction m check.2
  else
    dispatchAction m st

/-- Runs a sequence of admission checks at the given times, threading the
window state through canMakeRequest, and records each call time together
with its isAllowed outcome. -/
def runCalls (s : List Nat) : List Nat → List (Nat × Bool)
  | [] => []
  | t :: rest =>
    let r := canMakeRequest t ⟨s⟩
    (t, r.1.isAllowed) :: runCalls r.2.requestTimestamps rest

/-- A time x lies in the trailing sub-window of duration TIME_WINDOW
ending at T, with the same half-open convention the pruning filter of
canMakeRequest uses: x is at most T and less than TIME_WINDOW old. -/
def inWindow (T x : Nat) : Bool := x ≤ T && T - x < TIME_WINDOW

/-- Counts, among recorded admission-check results, the calls that were
admitted and whose time lies in the trailing sub-window ending at T. -/
def admittedInWindow (T : Nat) (out : List (Nat × Bool)) : Nat :=
  (out.filter (fun p => p.2 && inWindow T p.1)).length

/-- The form-encoded fields of an outbound POST body in src/api.js. -/
structure RequestParams where
  q : String
  source : String
  api_key : String
  target : String
  format : String
deriving DecidableEq, Repr

/-- The JSON fields of a backend response body that src/api.js consumes:
error, translatedText, and the nested response.status display string. -/
structure ResponseBody where
  error : Option String
  translatedText : Option String
  responseStatus : Option String
deriving DecidableEq, Repr

/-- An HTTP response: its status code and parsed JSON body. -/
structure HttpResponse where
  status : Nat
  body : ResponseBody
deriving DecidableEq, Repr

/-- The response.ok flag of the fetch API: status in the range 200-299. -/
def respOk (r : HttpResponse) : Bool := 200 ≤ r.status && r.status ≤ 299

/-- Outcome of one fetch: a response, or a network-level exception. -/
inductive FetchOutcome
  | success (resp : HttpResponse)
  | failure (message : String)
deriving DecidableEq, Repr

/-- JavaScript truthiness of an optional string field: present and non-empty. -/
def jsTruthy : Option String → Bool
  | none => false
  | some s => s ≠ ""

/-- A transport collaborator: given the endpoint URL and the request body,
yields the fetch outcome.  Deterministic per request, so an endpoint that
always answers 429 is a constant function. -/
def Transport : Type := String → RequestParams → FetchOutcome

/-- How the translateText promise settles: resolved with the body's
translatedText field (possibly absent), the thrown upstream error, or a
propagated network-level rejection. -/
inductive TranslateOutcome
  | resolved (translatedText : Option String)
  | thrown (message : String)
  | rejected (message : String)
deriving DecidableEq, Repr

/-- The form-encoded body translateText of src/api.js builds for its
POST: q = text, source = auto, api_key, target, format = text. -/
def translateParams (text targetLanguage apiKey : String) : RequestParams :=
  { q := text, source := "auto", api_key := apiKey,
    target := targetLanguage, format := "text" }

/-- Embeds translateText of src/api.js.  It builds the form body,
issues exactly one fetch — there is no validation, no status check and
no retry loop — then throws the body's error field when truthy and
otherwise resolves with the body's translatedText.  The second
component is the list of requests issued, for counting attempts. -/
def translateText (transport : Transport)
    (text targetLanguage apiUrl apiKey : String) :
    TranslateOutcome × List RequestParams :=
  let params : RequestParams := translateParams text targetLanguage apiKey
  match transport apiUrl params with
  | FetchOutcome.failure msg => (TranslateOutcome.rejected msg, [params])
  | FetchOutcome.success resp =>
    if jsTruthy resp.body.error then
      (TranslateOutcome.thrown (resp.body.error.getD ""), [params])
    else
      (TranslateOutcome.resolved resp.body.translatedText, [params])

/-- The resolved value of testConnection: a success flag and a message. -/
structure TestResult where
  success : Bool
  message : String
deriving DecidableEq, Repr

/-- The fixed probe body testConnection of src/api.js sends: an English
Hello to be translated to Spanish. -/
def probeParams (apiKey : String) : RequestParams :=
  { q := "Hello", source := "en", api_key := apiKey,
    target := "es", format := "text" }

/-- Embeds testConnection of src/api.js.  It issues one fetch with the
fixed probe body (q = Hello, source = en, target = es); a non-ok response
throws an HTTP error message, a truthy translatedText yields success with
the optional nested status string, and every thrown or network-level
error is caught and converted into a success = false result.  The second
component is the list of requests issued. -/
def testConnection (transport : Transport) (apiUrl apiKey : String) :
    TestResult × List RequestParams :=
  let params : RequestParams := probeParams apiKey
  let result : TestResult :=
    match transport apiUrl params with
    | FetchOutcome.failure msg => { success := false, message := msg }
    | FetchOutcome.success resp =>
      if respOk resp = false then
        let statusCode := resp.status
        { success := false, message := s!"HTTP error! Status: {statusCode}" }
      else if jsTruthy resp.body.translatedText then
        let statusMessage :=
          if jsTruthy resp.body.responseStatus then resp.body.responseStatus.getD ""
          else "Successfully"
        { success := true, message := s!"Success {statusMessage}" }
      else
        { success := false,
          message := if jsTruthy resp.body.error then resp.body.error.getD "" else "Unknown API error" }
  (result, [params])


/-! ## Basic lemmas about the embedded operations -/

theorem dispatchAction_state (m : Message) (st : RLState) :
    (dispatchAction m st).2 = st := by
  unfold dispatchAction
  split
  · rfl
  · split <;> rfl

theorem canMakeRequest_admit_state (now : Nat) (st : RLState)
    (h : (canMakeRequest now st).1.isAllowed = true) :
    (canMakeRequest now st).2.requestTimestamps
      = st.requestTimestamps.filter (fun x => decide (now - x < TIME_WINDOW)) ++ [now] := by
  by_cases hc : (st.requestTimestamps.filter (fun x => decide (now - x < TIME_WINDOW))).length
      < RATE_LIMIT
  · simp [canMakeRequest, hc]
  · simp [canMakeRequest, hc] at h

theorem canMakeRequest_deny_state (now : Nat) (st : RLState)
    (h : (canMakeRequest now st).1.isAllowed = false) :
    (canMakeRequest now st).2.requestTimestamps
      = st.requestTimestamps.filter (fun x => decide (now - x < TIME_WINDOW)) := by
  by_cases hc : (st.requestTimestamps.filter (fun x => decide (now - x < TIME_WINDOW))).length
      < RATE_LIMIT
  · simp [canMakeRequest, hc] at h
  · simp [canMakeRequest, hc]

theorem handleMessage_state (m : Message) (now : Nat) (st : RLState) :
    (handleMessage m now st).2 =
      if m.action = MessageAction.rateLimitUpdate ∨ m.action = MessageAction.showMessage
      then st else (canMakeRequest now st).2 := by
  by_cases hA : (canMakeRequest now st).1.isAllowed = false <;>
    cases hact : m.action <;>
      simp [handleMessage, dispatchAction, hact, hA]

/-! ## C4: the status read -/

/-- C4 counterexample: the status read does not perform the pruning the
admission check performs.  For the state holding the single stale
timestamp 0, read at time 100000, sendRateLimitUpdate reports 7 remaining
requests, while the pruned projection of the claim would report
RATE_LIMIT minus the zero surviving entries, i.e. 8. -/
theorem sendRateLimitUpdate_no_pruning_counterexample :
    (sendRateLimitUpdate 100000 ⟨[0]⟩).1.remainingRequests ≠
      (RATE_LIMIT : Int) -
        (((⟨[0]⟩ : RLState).requestTimestamps.filter
          (fun x => decide (100000 - x < TIME_WINDOW))).length : Int) := by
  decide

/-- C4 amended: the periodic status read is a read-only projection of the
raw window: remainingRequests is RATE_LIMIT minus the unpruned list
length, the state is returned unchanged, and an admission check after a
status read behaves exactly as one performed directly on the state. -/
theorem sendRateLimitUpdate_raw_readonly (now t : Nat) (st : RLState) :
    (sendRateLimitUpdate now st).1.remainingRequests
      = (RATE_LIMIT : Int) - (st.requestTimestamps.length : Int)
    ∧ (sendRateLimitUpdate now st).2 = st
    ∧ canMakeRequest t (sendRateLimitUpdate now st).2 = canMakeRequest t st :=
  ⟨rfl, rfl, rfl⟩

/-! ## C10: which message kinds reach the admission gate -/

/-- C10 counterexample: handling an updatePluginStatus message does not
leave the rate-limit window unchanged — on the empty window at time 0 it
appends a timestamp, because the listener exempts only rateLimitUpdate
and showMessage from the gate. -/
theorem updatePluginStatus_consumes_quota :
    (handleMessage ⟨MessageAction.updatePluginStatus, "", "", "", ""⟩ 0 ⟨[]⟩).2
      ≠ (⟨[]⟩ : RLState) := by
  decide

/-- C10 amended: exactly the actions rateLimitUpdate and showMessage are
exempt from admission control; every other inbound action — including
display-only ones such as updatePluginStatus — passes through
canMakeRequest and consumes quota on admission. -/
theorem gate_exempts_exactly_two_actions (m : Message) (now : Nat) (st : RLState) :
    (handleMessage m now st).2 =
      if m.action = MessageAction.rateLimitUpdate ∨ m.action = MessageAction.showMessage
      then st else (canMakeRequest now st).2 :=
  handleMessage_state m now st

/-! ## C2: denial answers the caller and never reaches the transport -/

/-- C2: when the admission check denies a translate message with computed
wait w, the listener responds with the rate-limit error carrying w and
never produces a delegation to translateText — the transport is not
invoked on local denial. -/
theorem denied_translate_never_reaches_transport
    (m : Message) (now : Nat) (st : RLState) (w : Int)
    (hm : m.action = MessageAction.translate)
    (hdeny : (canMakeRequest now st).1.isAllowed = false)
    (hw : (canMakeRequest now st).1.waitTime = some w) :
    (handleMessage m now st).1
      = HandlerEffect.respondRateLimitError w (rateLimitMessage w)
    ∧ ∀ a b c d, (handleMessage m now st).1 ≠ HandlerEffect.callTranslate a b c d := by
  have hout : (handleMessage m now st).1
      = HandlerEffect.respondRateLimitError w (rateLimitMessage w) := by
    simp [handleMessage, hm, hdeny, hw]
  exact ⟨hout, by intro a b c d; rw [hout]; simp⟩

/-- The saturated window holding eight timestamps at time 0. -/
def fullWindowState : RLState := ⟨[0, 0, 0, 0, 0, 0, 0, 0]⟩

/-- A concrete translate message. -/
def translateMsg : Message := ⟨MessageAction.translate, "hi", "es", "http", "key"⟩

/-- C2 witness: with the window saturated by eight admissions at time 0,
a translate message at time 0 is answered with the rate-limit error
carrying the computed wait of 60 seconds. -/
theorem denied_translate_witness :
    (handleMessage translateMsg 0 fullWindowState).1
      = HandlerEffect.respondRateLimitError 60 (rateLimitMessage 60) :=
  (denied_translate_never_reaches_transport translateMsg 0 fullWindowState 60
    rfl (by decide) (by decide)).1

/-! ## C9: testConnection shares the single admission window -/

/-- C9: a testConnection message passes the same canMakeRequest gate over
the same single window as a translate message: from any state the
post-handling windows coincide, and an admitted testConnection appends
its timestamp exactly as an admitted translate does. -/
theorem testConnection_shares_quota_window
    (m₁ m₂ : Message) (now : Nat) (st : RLState)
    (h₁ : m₁.action = MessageAction.translate)
    (h₂ : m₂.action = MessageAction.testConnection) :
    (handleMessage m₁ now st).2 = (handleMessage m₂ now st).2
    ∧ ((canMakeRequest now st).1.isAllowed = true →
        (handleMessage m₂ now st).2.requestTimestamps
          = st.requestTimestamps.filter (fun x => decide (now - x < TIME_WINDOW)) ++ [now]) := by
  have e₁ := handleMessage_state m₁ now st
  have e₂ := handleMessage_state m₂ now st
  rw [h₁] at e₁
  rw [h₂] at e₂
  simp at e₁ e₂
  refine ⟨e₁.trans e₂.symm, fun hadm => ?_⟩
  rw [e₂]
  exact canMakeRequest_admit_state now st hadm

/-- A concrete testConnection message. -/
def testMsg : Message := ⟨MessageAction.testConnection, "", "", "http", "key"⟩

/-- C9 witness: at time 5 on the empty window, a translate and a
testConnection message leave identical window states. -/
theorem testConnection_shares_quota_witness :
    (handleMessage translateMsg 5 ⟨[]⟩).2 = (handleMessage testMsg 5 ⟨[]⟩).2 :=
  (testConnection_shares_quota_window translateMsg testMsg 5 ⟨[]⟩ rfl rfl).1

/-! ## C7: waiting out the advertised delay guarantees admission -/

theorem canMakeRequest_admit_eq (now : Nat) (st : RLState)
    (hc : (st.requestTimestamps.filter (fun x => decide (now - x < TIME_WINDOW))).length
        < RATE_LIMIT) :
    canMakeRequest now st =
      ({ isAllowed := true, waitTime := none },
       ⟨st.requestTimestamps.filter (fun x => decide (now - x < TIME_WINDOW)) ++ [now]⟩) := by
  simp [canMakeRequest, hc]

theorem canMakeRequest_deny_eq (now : Nat) (st : RLState)
    (hc : ¬ (st.requestTimestamps.filter (fun x => decide (now - x < TIME_WINDOW))).length
        < RATE_LIMIT) :
    canMakeRequest now st =
      ({ isAllowed := false,
         waitTime := some (ceilDivInt ((TIME_WINDOW : Int) - ((now : Int) -
           (((st.requestTimestamps.filter (fun x => decide (now - x < TIME_WINDOW))).headD 0 : Nat) : Int))) 1000) },
       ⟨st.requestTimestamps.filter (fun x => decide (now - x < TIME_WINDOW))⟩) := by
  simp [canMakeRequest, hc]

theorem le_ceilDivInt_mul (a : Int) : a ≤ ceilDivInt a 1000 * 1000 := by
  have h := Int.ediv_mul_le (-a) (show (1000 : Int) ≠ 0 by norm_num)
  unfold ceilDivInt
  linarith

/-- C7: from any window state of at most RATE_LIMIT entries, if the
admission check at time t is denied with computed wait w seconds, then an
admission check at any time t' at or beyond t + w * 1000 milliseconds,
run on the state the denial left behind, is admitted. -/
theorem denied_then_wait_is_admitted (st : RLState) (t t' : Nat) (w : Int)
    (hlen : st.requestTimestamps.length ≤ RATE_LIMIT)
    (hdeny : (canMakeRequest t st).1.isAllowed = false)
    (hw : (canMakeRequest t st).1.waitTime = some w)
    (ht' : (t : Int) + w * 1000 ≤ (t' : Int)) :
    (canMakeRequest t' (canMakeRequest t st).2).1.isAllowed = true := by
  by_cases hc : (st.requestTimestamps.filter (fun x => decide (t - x < TIME_WINDOW))).length
      < RATE_LIMIT
  · rw [canMakeRequest_admit_eq t st hc] at hdeny
    simp at hdeny
  · have heq := canMakeRequest_deny_eq t st hc
    rw [heq] at hw
    simp only [Option.some.injEq] at hw
    rw [heq]
    have hlenp : RATE_LIMIT ≤
        (st.requestTimestamps.filter (fun x => decide (t - x < TIME_WINDOW))).length :=
      Nat.le_of_not_lt hc
    have hne : st.requestTimestamps.filter (fun x => decide (t - x < TIME_WINDOW)) ≠ [] := by
      intro hnil
      rw [hnil] at hlenp
      simp [RATE_LIMIT] at hlenp
    obtain ⟨h0, rest, hcons⟩ := List.exists_cons_of_ne_nil hne
    have hhead : (st.requestTimestamps.filter (fun x => decide (t - x < TIME_WINDOW))).headD 0
        = h0 := by rw [hcons]; rfl
    have hceil : ((TIME_WINDOW : Int) - ((t : Int) - (h0 : Int))) ≤ w * 1000 := by
      rw [← hw, hhead]
      exact le_ceilDivInt_mul _
    have hkey : (h0 : Int) + (TIME_WINDOW : Int) ≤ (t' : Int) := by linarith
    have hkeyN : h0 + TIME_WINDOW ≤ t' := by exact_mod_cast hkey
    have hdrop : ¬ (t' - h0 < TIME_WINDOW) := by omega
    have hfilter : (RLState.mk (st.requestTimestamps.filter
          (fun x => decide (t - x < TIME_WINDOW)))).requestTimestamps.filter
          (fun x => decide (t' - x < TIME_WINDOW))
        = rest.filter (fun x => decide (t' - x < TIME_WINDOW)) := by
      show (st.requestTimestamps.filter (fun x => decide (t - x < TIME_WINDOW))).filter
          (fun x => decide (t' - x < TIME_WINDOW)) = _
      rw [hcons, List.filter_cons]
      simp [hdrop]
    have hrestlen : rest.length + 1 ≤ RATE_LIMIT := by
      have hfl : (st.requestTimestamps.filter (fun x => decide (t - x < TIME_WINDOW))).length
          ≤ st.requestTimestamps.length := List.length_filter_le _ _
      rw [hcons] at hfl
      simp at hfl
      omega
    have hc2 : ((RLState.mk (st.requestTimestamps.filter
          (fun x => decide (t - x < TIME_WINDOW)))).requestTimestamps.filter
          (fun x => decide (t' - x < TIME_WINDOW))).length < RATE_LIMIT := by
      rw [hfilter]
      have := List.length_filter_le (fun x => decide (t' - x < TIME_WINDOW)) rest
      omega
    rw [canMakeRequest_admit_eq t' _ hc2]

/-- C7 witness: eight admissions at time 0 saturate the window; the ninth
check at time 0 is denied with wait 60 seconds, and the retry at
t = 60001 ms ≥ 0 + 60 * 1000 on the post-denial state is admitted. -/
theorem denied_then_wait_witness :
    (canMakeRequest 60001 (canMakeRequest 0 fullWindowState).2).1.isAllowed = true :=
  denied_then_wait_is_admitted fullWindowState 0 60001 60
    (by decide) (by decide) (by decide) (by decide)

/-! ## C1: window correctness of admission sequences -/

theorem admittedInWindow_nil (T : Nat) : admittedInWindow T [] = 0 := rfl

theorem admittedInWindow_cons (T : Nat) (p : Nat × Bool) (out : List (Nat × Bool)) :
    admittedInWindow T (p :: out)
      = (if (p.2 && inWindow T p.1) = true then 1 else 0) + admittedInWindow T out := by
  unfold admittedInWindow
  rw [List.filter_cons]
  split
  · simp [Nat.add_comm]
  · simp

theorem admittedInWindow_eq_zero_of_late (T : Nat) (s l : List Nat)
    (h : ∀ u ∈ l, T < u) :
    admittedInWindow T (runCalls s l) = 0 := by
  induction l generalizing s with
  | nil => rfl
  | cons t rest ih =>
    have ht : T < t := h t (List.mem_cons_self _ _)
    have hw : inWindow T t = false := by
      unfold inWindow
      simp [Nat.not_le.mpr ht]
    unfold runCalls
    rw [admittedInWindow_cons]
    simp [hw]
    exact ih _ fun u hu => h u (List.mem_cons_of_mem _ hu)

theorem filter_window_of_le (s : List Nat) (t T : Nat) (ht : t ≤ T) :
    (s.filter (fun x => decide (t - x < TIME_WINDOW))).filter (fun x => inWindow T x)
      = s.filter (fun x => inWindow T x) := by
  rw [List.filter_filter]
  apply List.filter_congr
  intro x _
  by_cases hx : inWindow T x = true
  · have hxw : t - x < TIME_WINDOW := by
      have := hx
      unfold inWindow at this
      simp at this
      omega
    simp [hx, hxw]
  · simp [Bool.eq_false_iff.mpr hx]

theorem runCalls_window_bound (l : List Nat) : ∀ (s : List Nat) (T : Nat),
    List.Pairwise (fun a b => a ≤ b) l →
    (∀ x ∈ s, ∀ u ∈ l, x ≤ u) →
    s.length ≤ RATE_LIMIT →
    admittedInWindow T (runCalls s l) + (s.filter (fun x => inWindow T x)).length
      ≤ RATE_LIMIT := by
  induction l with
  | nil =>
    intro s T _ _ hs
    rw [runCalls, admittedInWindow_nil, Nat.zero_add]
    exact le_trans (List.length_filter_le _ _) hs
  | cons t rest ih =>
    intro s T hp hb hs
    have htr : ∀ u ∈ rest, t ≤ u := (List.pairwise_cons.mp hp).1
    have hp' : List.Pairwise (fun a b => a ≤ b) rest := (List.pairwise_cons.mp hp).2
    by_cases hc : (s.filter (fun x => decide (t - x < TIME_WINDOW))).length < RATE_LIMIT
    · -- the call at t is admitted
      have hstep := canMakeRequest_admit_eq t ⟨s⟩ hc
      rw [runCalls, hstep, admittedInWindow_cons]
      by_cases hT : t ≤ T
      · have hb' : ∀ x ∈ s.filter (fun x => decide (t - x < TIME_WINDOW)) ++ [t],
            ∀ u ∈ rest, x ≤ u := by
          intro x hx u hu
          rcases List.mem_append.mp hx with hx | hx
          · exact hb x (List.mem_of_mem_filter hx) u (List.mem_cons_of_mem _ hu)
          · rw [List.mem_singleton.mp hx]
            exact htr u hu
        have hs' : (s.filter (fun x => decide (t - x < TIME_WINDOW)) ++ [t]).length
            ≤ RATE_LIMIT := by
          rw [List.length_append]
          simp only [List.length_singleton]
          omega
        have ihres := ih (s.filter (fun x => decide (t - x < TIME_WINDOW)) ++ [t]) T hp' hb' hs'
        have hsplit : ((s.filter (fun x => decide (t - x < TIME_WINDOW)) ++ [t]).filter
              (fun x => inWindow T x)).length
            = (s.filter (fun x => inWindow T x)).length
              + (if inWindow T t = true then 1 else 0) := by
          rw [List.filter_append, List.length_append,
            congrArg List.length (filter_window_of_le s t T hT)]
          congr 1
          cases hW : inWindow T t <;> simp [hW]
        rw [hsplit] at ihres
        simp only [Bool.true_and]
        omega
      · have hlate : admittedInWindow T
            (runCalls (s.filter (fun x => decide (t - x < TIME_WINDOW)) ++ [t]) rest) = 0 :=
          admittedInWindow_eq_zero_of_late T _ rest
            (fun u hu => lt_of_lt_of_le (Nat.lt_of_not_le hT) (htr u hu))
        have hwt : inWindow T t = false := by
          unfold inWindow
          simp [hT]
        have hfl : (s.filter (fun x => inWindow T x)).length ≤ RATE_LIMIT :=
          le_trans (List.length_filter_le _ _) hs
        rw [hlate, hwt]
        simp
        exact hfl
    · -- the call at t is denied
      have hstep := canMakeRequest_deny_eq t ⟨s⟩ hc
      rw [runCalls, hstep, admittedInWindow_cons]
      simp only [Bool.false_and, if_neg (by simp : ¬ (false = true)), Nat.zero_add]
      by_cases hT : t ≤ T
      · have hb' : ∀ x ∈ s.filter (fun x => decide (t - x < TIME_WINDOW)),
            ∀ u ∈ rest, x ≤ u :=
          fun x hx u hu => hb x (List.mem_of_mem_filter hx) u (List.mem_cons_of_mem _ hu)
        have hs' : (s.filter (fun x => decide (t - x < TIME_WINDOW))).length ≤ RATE_LIMIT :=
          le_trans (List.length_filter_le _ _) hs
        have ihres := ih (s.filter (fun x => decide (t - x < TIME_WINDOW))) T hp' hb' hs'
        rw [congrArg List.length (filter_window_of_le s t T hT)] at ihres
        exact ihres
      · have hlate : admittedInWindow T
            (runCalls (s.filter (fun x => decide (t - x < TIME_WINDOW))) rest) = 0 :=
          admittedInWindow_eq_zero_of_late T _ rest
            (fun u hu => lt_of_lt_of_le (Nat.lt_of_not_le hT) (htr u hu))
        rw [hlate]
        simp
        exact le_trans (List.length_filter_le _ _) hs

/-- C1: for every non-decreasing sequence of admission-check times run
through canMakeRequest from the empty window, the number of admitted
calls whose times fall in any trailing sub-window of duration TIME_WINDOW
never exceeds RATE_LIMIT. -/
theorem admission_window_never_exceeds_capacity (l : List Nat)
    (hsorted : List.Pairwise (fun a b => a ≤ b) l) (T : Nat) :
    admittedInWindow T (runCalls [] l) ≤ RATE_LIMIT := by
  have h := runCalls_window_bound l [] T hsorted
    (by intro x hx; exact absurd hx (List.not_mem_nil x)) (Nat.zero_le _)
  simpa using h

/-- C1 witness: nine admission checks all at time 0 are non-decreasing,
and the admitted calls inside the trailing window ending at 0 number at
most RATE_LIMIT. -/
theorem admission_window_witness :
    List.Pairwise (fun a b => a ≤ b) [0, 0, 0, 0, 0, 0, 0, 0, 0]
    ∧ admittedInWindow 0 (runCalls [] [0, 0, 0, 0, 0, 0, 0, 0, 0]) ≤ RATE_LIMIT :=
  ⟨by decide, admission_window_never_exceeds_capacity
    [0, 0, 0, 0, 0, 0, 0, 0, 0] (by decide) 0⟩

/-! ## C3, C5, C6: translateText has no retry, no validation, no status check -/

/-- An endpoint that answers HTTP 429 with an upstream error body on
every request. -/
def always429 : Transport := fun _ _ =>
  FetchOutcome.success ⟨429, ⟨some "Too many requests", none, none⟩⟩

/-- An endpoint that always answers HTTP 200 with a translation. -/
def ok200Hola : Transport := fun _ _ =>
  FetchOutcome.success ⟨200, ⟨none, some "Hola", none⟩⟩

/-- An endpoint that always answers HTTP 500, with a translation in the
body. -/
def http500Hola : Transport := fun _ _ =>
  FetchOutcome.success ⟨500, ⟨none, some "Hola", none⟩⟩

/-- C3 counterexample: against the endpoint that always returns 429,
translateText issues exactly one request — not maxRetries + 1 = 4 — and
settles by throwing the body's error, not by a retry-exhausted
RateLimited failure. -/
theorem retry_bound_counterexample :
    ((translateText always429 "hi" "es" "url" "key").2).length = 1
    ∧ ((translateText always429 "hi" "es" "url" "key").2).length ≠ 3 + 1
    ∧ (translateText always429 "hi" "es" "url" "key").1
        = TranslateOutcome.thrown "Too many requests" :=
  ⟨rfl, by decide, rfl⟩

theorem translateText_requests (transport : Transport)
    (text targetLanguage apiUrl apiKey : String) :
    (translateText transport text targetLanguage apiUrl apiKey).2
      = [translateParams text targetLanguage apiKey] := by
  cases h : transport apiUrl (translateParams text targetLanguage apiKey) with
  | failure msg => simp [translateText, h]
  | success resp =>
    cases hb : jsTruthy resp.body.error <;> simp [translateText, h, hb]

/-- C3 amended: translateText contains no retry loop at all: for every
transport — in particular an endpoint that always answers HTTP 429 — it
issues exactly one request (the form body built from its arguments) and
settles after that single attempt. -/
theorem translateText_single_attempt (transport : Transport)
    (text targetLanguage apiUrl apiKey : String) :
    (translateText transport text targetLanguage apiUrl apiKey).2
      = [translateParams text targetLanguage apiKey] :=
  translateText_requests transport text targetLanguage apiUrl apiKey

/-- C5 counterexample: with every field empty, translateText still issues
one network request and, against a normal 200 endpoint, resolves with the
translation — it does not fail with InvalidRequest and does not skip the
network. -/
theorem empty_fields_still_fetch_counterexample :
    ((translateText ok200Hola "" "" "" "").2).length = 1
    ∧ (translateText ok200Hola "" "" "" "").1 = TranslateOutcome.resolved (some "Hola") :=
  ⟨rfl, rfl⟩

/-- C5 amended: translateText performs no validation of text,
targetLanguage, endpoint or credential: called with all four empty it
still issues exactly one request, and its outcome is exactly the
transport's response — rejected on network failure, thrown on a truthy
body error, resolved otherwise — with no InvalidRequest path. -/
theorem translateText_no_validation (transport : Transport) :
    (translateText transport "" "" "" "").2 = [translateParams "" "" ""]
    ∧ (∀ msg, transport "" (translateParams "" "" "") = FetchOutcome.failure msg →
        (translateText transport "" "" "" "").1 = TranslateOutcome.rejected msg)
    ∧ (∀ resp, transport "" (translateParams "" "" "") = FetchOutcome.success resp →
        (translateText transport "" "" "" "").1
          = if jsTruthy resp.body.error then
              TranslateOutcome.thrown (resp.body.error.getD "")
            else TranslateOutcome.resolved resp.body.translatedText) := by
  refine ⟨translateText_requests transport "" "" "" "", ?_, ?_⟩
  · intro msg hm
    simp [translateText, hm]
  · intro resp hr
    cases hb : jsTruthy resp.body.error <;> simp [translateText, hr, hb]

/-- C5 witness: applying the no-validation theorem to the 200 endpoint at
the all-empty call. -/
theorem translateText_no_validation_witness :
    (translateText ok200Hola "" "" "" "").1 = TranslateOutcome.resolved (some "Hola") :=
  (translateText_no_validation ok200Hola).2.2 ⟨200, ⟨none, some "Hola", none⟩⟩ rfl

/-- C6 counterexample: on an HTTP 500 response whose body carries a
translation, translateText resolves successfully with that translation;
it does not fail with an HttpError carrying the status. -/
theorem non_2xx_not_surfaced_counterexample :
    (translateText http500Hola "hi" "es" "url" "key").1
      = TranslateOutcome.resolved (some "Hola")
    ∧ ∀ msg, (translateText http500Hola "hi" "es" "url" "key").1
        ≠ TranslateOutcome.thrown msg := by
  refine ⟨rfl, ?_⟩
  intro msg
  simp [translateText, http500Hola, jsTruthy]

/-- C6 amended: translateText ignores the HTTP status code entirely: two
responses that differ only in status (including any non-2xx status other
than 429) produce identical outcomes, determined by the body alone; no
HttpError is ever raised and no retry happens (the request list is the
same single request). -/
theorem translateText_ignores_status (s₁ s₂ : Nat) (body : ResponseBody)
    (text targetLanguage apiUrl apiKey : String) :
    (translateText (fun _ _ => FetchOutcome.success ⟨s₁, body⟩)
        text targetLanguage apiUrl apiKey)
      = (translateText (fun _ _ => FetchOutcome.success ⟨s₂, body⟩)
        text targetLanguage apiUrl apiKey) := by
  cases hb : jsTruthy body.error <;> simp [translateText, hb]

/-! ## C8: testConnection is total and exact about success -/

/-- An unreachable endpoint: every fetch raises a network exception. -/
def failTransport : Transport := fun _ _ => FetchOutcome.failure "Failed to fetch"

/-- C8: testConnection never lets an exception past its boundary: a
network-level failure is converted into success = false carrying the
exception's description, and the result's success flag is true exactly
when the HTTP response is 2xx and the body holds a non-empty
translatedText. -/
theorem testConnection_total_and_exact (transport : Transport) (apiUrl apiKey : String) :
    (∀ msg, transport apiUrl (probeParams apiKey) = FetchOutcome.failure msg →
        (testConnection transport apiUrl apiKey).1 = ⟨false, msg⟩)
    ∧ ((testConnection transport apiUrl apiKey).1.success = true ↔
        ∃ resp, transport apiUrl (probeParams apiKey) = FetchOutcome.success resp
          ∧ respOk resp = true ∧ jsTruthy resp.body.translatedText = true) := by
  cases h : transport apiUrl (probeParams apiKey) with
  | failure msg =>
    constructor
    · intro m hm
      injection hm with e
      subst e
      simp [testConnection, h]
    · simp [testConnection, h]
  | success resp =>
    constructor
    · intro m hm
      exact absurd hm (by simp)
    · by_cases hok : respOk resp = true
      · by_cases htt : jsTruthy resp.body.translatedText = true
        · simp [testConnection, h, hok, htt]
        · simp [testConnection, h, hok, htt]
      · have hok' : respOk resp = false := Bool.eq_false_iff.mpr hok
        simp [testConnection, h, hok']
  
/-- C8 witness: against an unreachable host, testConnection resolves with
success = false and the transport error text, by the totality theorem. -/
theorem testConnection_witness :
    (testConnection failTransport "url" "key").1 = ⟨false, "Failed to fetch"⟩ :=
  (testConnection_total_and_exact failTransport "url" "key").1 "Failed to fetch" rfl
